import Mathlib

/-!
Verification development for the stock-strategy-alert scanner
(`src/scanner.py`, class `V20Scanner`).

Prices are modelled as rationals (`ℚ`); a pandas DataFrame of daily bars is
a `List Bar`; a bar's position in the list stands in for its date index.
Python's `round(x, 2)` is modelled as rounding `x * 100` to the nearest
integer.  The external `yfinance` fetch is modelled as an oracle
`String → Except String (List Bar)`: an `Except.error` models a raised
exception, an empty list models "no data".
-/

namespace Scanner

/-- One daily bar, as used by the scanner: `df.iloc[j]['Open']` and
`df.iloc[j]['Close']`. -/
structure Bar where
  Open : ℚ
  Close : ℚ
deriving Repr, DecidableEq

/-- A detected pattern, as built in `find_20_percent_patterns`
(`src/scanner.py:78-84`).  `start_idx` stands in for `start_date`
(the code stores `df.index[start_idx]`). -/
structure Pattern where
  start_idx : ℕ
  start_price : ℚ
  end_price : ℚ
  gain_percent : ℚ
  candles : ℕ
deriving Repr, DecidableEq

/-- An alert appended to `self.v20_alerts` / `self.envelope_alerts`.
The string messages are presentation; we keep the numeric payload. -/
inductive Alert where
  | v20_activated (current_price start_price gain_percent : ℚ) (start_idx : ℕ)
  | v20_near (current_price start_price diff_percent gain_percent : ℚ) (start_idx : ℕ)
  | envelope_buy (current_price sma_200 drop_from_sma sell_target : ℚ)
deriving Repr, DecidableEq

/-- Python `round(x, 2)`: round to two decimal places (nearest integer
number of hundredths; the exact tie-breaking of binary floats is
approximated by `round`). -/
def round2 (x : ℚ) : ℚ := ((round (x * 100) : ℤ) : ℚ) / 100

/-- The green-candle test `df.iloc[j]['Close'] > df.iloc[j]['Open']`
(`src/scanner.py:69`). -/
def isGreen (b : Bar) : Bool := decide (b.Open < b.Close)

/-- Length of the inner `while` run of `find_20_percent_patterns`
(`src/scanner.py:69-72`): the number of consecutive green bars starting
at index `i` (this is `consecutive_green`, and the loop exits with
`j = i + greenRunLen df i`). -/
def greenRunLen (df : List Bar) (i : ℕ) : ℕ :=
  ((df.drop i).takeWhile isGreen).length

/-- The `current_high` value after the inner `while` loop: initialised to
`df.iloc[i]['Close']` (`src/scanner.py:64`) and maxed with each green
bar's close (`src/scanner.py:70`). -/
def runHigh (df : List Bar) (i : ℕ) (h : i < df.length) : ℚ :=
  ((df.drop i).takeWhile isGreen).foldl (fun m b => max m b.Close)
    (df.get ⟨i, h⟩).Close

/-- The pattern-emission decision for one run (`src/scanner.py:74-84`):
a run of `g` green candles anchored at `start_price` with peak
`current_high` is appended exactly when `g > 0` and
`gain_percent = (current_high - start_price) / start_price * 100 >= 20`. -/
def runPattern (start_idx : ℕ) (start_price current_high : ℚ) (g : ℕ) :
    List Pattern :=
  if 0 < g then
    let gain_percent := (current_high - start_price) / start_price * 100
    if 20 ≤ gain_percent then
      [⟨start_idx, round2 start_price, round2 current_high,
        round2 gain_percent, g⟩]
    else []
  else []

/-- The outer `while i < len(df)` loop of `find_20_percent_patterns`
(`src/scanner.py:61-86`), with explicit fuel.  Each iteration reads the
anchor `start_price = df.iloc[i]['Open']`, runs the inner green-candle
loop, possibly emits a pattern, and resumes at `j` if `j > i`, else at
`i + 1`. -/
def scanFromFuel (df : List Bar) : ℕ → ℕ → List Pattern
  | 0, _ => []
  | fuel + 1, i =>
    if h : i < df.length then
      let start_price := (df.get ⟨i, h⟩).Open
      let g := greenRunLen df i
      let j := i + g
      runPattern i start_price (runHigh df i h) g ++
        scanFromFuel df fuel (if i < j then j else i + 1)
    else []

/-- `find_20_percent_patterns` (`src/scanner.py:46-91`) after the fetch:
an empty frame returns `[]` (`src/scanner.py:55-56`), otherwise the scan
loop runs from index 0.  The outer loop advances `i` by at least one per
iteration, so `df.length` fuel is enough (proved below). -/
def find_20_percent_patterns (df : List Bar) : List Pattern :=
  if df.isEmpty then [] else scanFromFuel df df.length 0

/-- `get_current_price_and_sma` (`src/scanner.py:93-108`) after the fetch:
`current_price = df.iloc[-1]['Close']`; the 200-day SMA is defined only
when `len(df) >= 200`, and the Python truthiness test
`round(sma_200, 2) if sma_200 else None` also maps an SMA equal to zero
to `None`. -/
def get_current_price_and_sma (df : List Bar) : Option ℚ × Option ℚ :=
  match df.getLast? with
  | none => (none, none)
  | some last =>
    let current_price := last.Close
    let sma_200 : Option ℚ :=
      if 200 ≤ df.length then
        some (((df.drop (df.length - 200)).map Bar.Close).sum / 200)
      else none
    (some (round2 current_price),
      match sma_200 with
      | some v => if v = 0 then none else some (round2 v)
      | none => none)

/-- The body of `check_envelope_strategy` after the prices are obtained
(`src/scanner.py:113-139`): if either value is `None` nothing is emitted;
otherwise `drop_from_sma = (sma_200 - current_price) / sma_200 * 100` and
one BUY alert is appended exactly when `drop_from_sma >= 14`, with
`sell_target = round(current_price * 1.30, 2)`. -/
def check_envelope_core (current_price sma_200 : Option ℚ) : List Alert :=
  match current_price, sma_200 with
  | some c, some m =>
    let drop_from_sma := (m - c) / m * 100
    if 14 ≤ drop_from_sma then
      [.envelope_buy c m (round2 drop_from_sma) (round2 (c * (130 / 100)))]
    else []
  | _, _ => []

/-- `check_envelope_strategy` (`src/scanner.py:110-142`) with the fetch
externalised to the bar series it would retrieve. -/
def check_envelope_strategy (df : List Bar) : List Alert :=
  let pair := get_current_price_and_sma df
  check_envelope_core pair.1 pair.2

/-- The body of the `for pattern in patterns` loop of `check_v20_alerts`
(`src/scanner.py:149-166`): `difference_percent =
abs((current_price - start_price) / start_price) * 100`; the `if` branch
appends an ACTIVATED alert when `difference_percent <= 1`, the `elif`
branch a NEAR alert when `difference_percent <= 5` and
`current_price < start_price`; otherwise nothing. -/
def v20AlertFor (current_price : ℚ) (p : Pattern) : List Alert :=
  let start_price := p.start_price
  let difference_percent := |(current_price - start_price) / start_price| * 100
  if difference_percent ≤ 1 then
    [.v20_activated current_price start_price p.gain_percent p.start_idx]
  else if difference_percent ≤ 5 ∧ current_price < start_price then
    [.v20_near current_price start_price (round2 difference_percent)
      p.gain_percent p.start_idx]
  else []

/-- `check_v20_alerts` (`src/scanner.py:144-166`): returns early when the
pattern list is empty or the current price is `None`
(`src/scanner.py:146-147`), otherwise iterates over all patterns
appending each pattern's alerts. -/
def check_v20_alerts (patterns : List Pattern) (current_price : Option ℚ) :
    List Alert :=
  match current_price with
  | none => []
  | some c =>
    if patterns.isEmpty then []
    else patterns.foldl (fun acc p => acc ++ v20AlertFor c p) []

/-- The `try/except` wrapper of `find_20_percent_patterns`
(`src/scanner.py:48-91`): a raised fetch error yields `[]`. -/
def find_20_for_symbol (fetch : String → Except String (List Bar))
    (symbol : String) : List Pattern :=
  match fetch symbol with
  | .error _ => []
  | .ok df => find_20_percent_patterns df

/-- The `try/except` wrapper of `get_current_price_and_sma`
(`src/scanner.py:95-108`): a raised fetch error yields `(None, None)`. -/
def get_price_for_symbol (fetch : String → Except String (List Bar))
    (symbol : String) : Option ℚ × Option ℚ :=
  match fetch symbol with
  | .error _ => (none, none)
  | .ok df => get_current_price_and_sma df

/-- The per-symbol V20 body of `run_scan` (`src/scanner.py:274-294`):
scan for patterns and, when some exist, evaluate the current price
against them. -/
def process_symbol_v20 (fetchHist fetchPrice : String → Except String (List Bar))
    (symbol : String) : List Alert :=
  let patterns := find_20_for_symbol fetchHist symbol
  if patterns.isEmpty then []
  else check_v20_alerts patterns (get_price_for_symbol fetchPrice symbol).1

/-- The report accumulated by `run_scan`: the alert list plus the record
of symbols whose processing raised (printed and skipped at
`src/scanner.py:307-311`). -/
structure Report where
  alerts : List Alert
  skipped : List String
deriving Repr, DecidableEq

/-- Alerts contributed by one symbol when its evaluation does not raise;
a raised error contributes none. -/
def ok_alerts (eval : String → Except String (List Alert))
    (symbol : String) : List Alert :=
  match eval symbol with
  | .ok alerts => alerts
  | .error _ => []

/-- Whether a symbol's evaluation raises. -/
def eval_failed (eval : String → Except String (List Alert))
    (symbol : String) : Bool :=
  match eval symbol with
  | .ok _ => false
  | .error _ => true

/-- The `for symbol in symbols` loop of `run_scan`
(`src/scanner.py:270-311`): each symbol's evaluation is attempted; on
success its alerts are appended, on a raised error the symbol is
recorded and the loop continues (`except ... continue`).  The
evaluation is an oracle so that an arbitrary raised exception can be
modelled. -/
def run_scan_loop (eval : String → Except String (List Alert)) :
    List String → Report
  | [] => ⟨[], []⟩
  | symbol :: rest =>
    let tail := run_scan_loop eval rest
    match eval symbol with
    | .ok alerts => ⟨alerts ++ tail.alerts, tail.skipped⟩
    | .error _ => ⟨tail.alerts, symbol :: tail.skipped⟩

/-! ### Helper lemmas -/

lemma foldl_append_eq_flatMap {α β : Type} (f : α → List β) (l : List α) :
    ∀ init : List β,
      l.foldl (fun acc p => acc ++ f p) init = init ++ l.flatMap f := by
  induction l with
  | nil => intro init; simp
  | cons p l ih => intro init; simp [ih, List.append_assoc]

lemma check_v20_alerts_eq (patterns : List Pattern) (c : ℚ) :
    check_v20_alerts patterns (some c) = patterns.flatMap (v20AlertFor c) := by
  unfold check_v20_alerts
  by_cases h : patterns.isEmpty
  · rw [List.isEmpty_iff] at h
    simp [h]
  · simp only [h, if_false, Bool.false_eq_true]
    simpa using foldl_append_eq_flatMap (v20AlertFor c) patterns []

/-! ### Claims about the breakout evaluator -/

/-- C1 fails on the code: the claim says a BREAKOUT signal is emitted
exactly when `diffPercent <= 3`, and in particular that anchor 100 and
current price 103.00 (diffPercent exactly 3) emits a signal; the code's
`check_v20_alerts` has no 3% tolerance — at diffPercent 3 with the
current price above the anchor neither the `<= 1` branch nor the
`<= 5 and current < start` branch fires, so no alert is appended. -/
theorem claim_C1_counterexample :
    check_v20_alerts [⟨0, 100, 130, 30, 3⟩] (some 103) = [] ∧
      |((103 : ℚ) - 100) / 100| * 100 ≤ 3 := by
  constructor
  · norm_num [check_v20_alerts, v20AlertFor, List.foldl, abs_of_nonneg]
  · norm_num [abs_of_nonneg]

/-- C1 (amended): for every pattern with positive start price, the
evaluator appends an alert for that pattern exactly when
`diffPercent <= 1` (ACTIVATED) or `diffPercent <= 5` with the current
price strictly below the start price (NEAR); in particular anchor 100
with current price 103.00 emits nothing, and 103.01 emits nothing. -/
theorem claim_C1_v20_alert_condition :
    (∀ (p : Pattern) (c : ℚ), 0 < p.start_price →
      (v20AlertFor c p ≠ [] ↔
        |(c - p.start_price) / p.start_price| * 100 ≤ 1 ∨
          (|(c - p.start_price) / p.start_price| * 100 ≤ 5 ∧
            c < p.start_price))) ∧
    check_v20_alerts [⟨0, 100, 130, 30, 3⟩] (some 103) = [] ∧
    check_v20_alerts [⟨0, 100, 130, 30, 3⟩] (some 103.01) = [] := by
  refine ⟨fun p c _hpos => ?_, ?_, ?_⟩
  · unfold v20AlertFor
    dsimp only
    split_ifs with h1 h2
    · simp only [ne_eq, List.cons_ne_nil, not_false_eq_true, true_iff]
      exact Or.inl h1
    · simp only [ne_eq, List.cons_ne_nil, not_false_eq_true, true_iff]
      exact Or.inr h2
    · simp only [ne_eq, not_true_eq_false, false_iff, not_or, not_and]
      exact ⟨h1, fun h5 => by
        rcases not_and_or.mp h2 with h | h
        · exact absurd h5 h
        · exact fun hc => absurd hc h⟩
  · norm_num [check_v20_alerts, v20AlertFor, List.foldl, abs_of_nonneg]
  · norm_num [check_v20_alerts, v20AlertFor, List.foldl, abs_of_nonneg]

/-- C1 witness: the alert condition applied to a concrete pattern
(start price 100) and current price 96 (the NEAR branch fires). -/
theorem claim_C1_witness :
    0 < (Pattern.mk 0 100 130 30 3).start_price ∧
      (v20AlertFor 96 ⟨0, 100, 130, 30, 3⟩ ≠ [] ↔
        |((96 : ℚ) - 100) / 100| * 100 ≤ 1 ∨
          (|((96 : ℚ) - 100) / 100| * 100 ≤ 5 ∧ (96 : ℚ) < 100)) :=
  ⟨by decide, claim_C1_v20_alert_condition.1 ⟨0, 100, 130, 30, 3⟩ 96 (by decide)⟩

/-- C2 fails on the code: the claim says at most one BREAKOUT signal per
run, stopping at the first qualifying pattern; the loop in
`check_v20_alerts` has no break — two qualifying patterns on disjoint
index ranges ([0,3) and [10,14)), both at zero distance from the
current price, produce two alerts. -/
theorem claim_C2_counterexample :
    (check_v20_alerts [⟨0, 100, 125, 25, 3⟩, ⟨10, 100, 126, 26, 4⟩]
      (some 100)).length = 2 := by
  norm_num [check_v20_alerts, v20AlertFor, List.foldl]

/-- C2 (amended): the evaluator emits one alert per qualifying pattern
and does not stop at the first: for any pattern list and current price
the output is the concatenation of each pattern's alerts in order. -/
theorem claim_C2_signal_per_pattern :
    ∀ (patterns : List Pattern) (c : ℚ),
      check_v20_alerts patterns (some c) = patterns.flatMap (v20AlertFor c) :=
  fun patterns c => check_v20_alerts_eq patterns c

/-- C9: for every pattern with positive start price the `if/elif` chain
appends at most one alert, and a current price strictly above the start
price with `diffPercent > 1` never produces an alert (the ACTIVATED
branch needs `diffPercent <= 1`, the NEAR branch needs
`current < start`). -/
theorem claim_C9_at_most_one_alert :
    ∀ (p : Pattern) (c : ℚ), 0 < p.start_price →
      (v20AlertFor c p).length ≤ 1 ∧
        (p.start_price < c →
          1 < |(c - p.start_price) / p.start_price| * 100 →
            v20AlertFor c p = []) := by
  intro p c _hpos
  constructor
  · unfold v20AlertFor
    dsimp only
    split_ifs <;> simp
  · intro hlt hdiff
    unfold v20AlertFor
    dsimp only
    rw [if_neg (by exact not_le.mpr hdiff),
      if_neg (by exact fun hand => absurd hand.2 (not_lt.mpr hlt.le))]

/-- C9 witness: the theorem at a concrete pattern (start price 100)
and current price 102 (2% above the start price: no alert). -/
theorem claim_C9_witness :
    0 < (Pattern.mk 0 100 130 30 3).start_price ∧
      ((v20AlertFor 102 ⟨0, 100, 130, 30, 3⟩).length ≤ 1 ∧
        ((100 : ℚ) < 102 →
          1 < |((102 : ℚ) - 100) / 100| * 100 →
            v20AlertFor 102 ⟨0, 100, 130, 30, 3⟩ = [])) :=
  ⟨by decide, claim_C9_at_most_one_alert ⟨0, 100, 130, 30, 3⟩ 102 (by decide)⟩

/-! ### Claims about the mean-reversion evaluator -/

/-- C5: for a defined positive average the envelope evaluator emits
exactly one BUY alert when `dropPercent >= 14` and none otherwise, never
more than one; average 100 with current price 86.00 emits one alert,
86.01 emits none. -/
theorem claim_C5_mean_reversion_threshold :
    (∀ (m c : ℚ), 0 < m →
      ((check_envelope_core (some c) (some m)).length = 1 ↔
        14 ≤ (m - c) / m * 100) ∧
      (check_envelope_core (some c) (some m)).length ≤ 1) ∧
    (check_envelope_core (some 86) (some 100)).length = 1 ∧
    check_envelope_core (some 86.01) (some 100) = [] := by
  refine ⟨fun m c _hm => ?_, ?_, ?_⟩
  · unfold check_envelope_core
    dsimp only
    constructor
    · split_ifs with h
      · simp [h]
      · simp [h]
    · split_ifs <;> simp
  · norm_num [check_envelope_core]
  · norm_num [check_envelope_core]

/-- C5 witness: the threshold equivalence applied at average 100 and
current price 86. -/
theorem claim_C5_witness :
    0 < (100 : ℚ) ∧
      (((check_envelope_core (some 86) (some 100)).length = 1 ↔
        14 ≤ ((100 : ℚ) - 86) / 100 * 100) ∧
      (check_envelope_core (some 86) (some 100)).length ≤ 1) :=
  ⟨by decide, claim_C5_mean_reversion_threshold.1 100 86 (by decide)⟩

/-- The second component of `get_current_price_and_sma` is `None`
whenever the series is shorter than the 200-bar window. -/
lemma sma_none_of_short (df : List Bar) (h : df.length < 200) :
    (get_current_price_and_sma df).2 = none := by
  unfold get_current_price_and_sma
  cases df.getLast? with
  | none => rfl
  | some last => simp [Nat.not_le.mpr h]

/-- With an undefined average the envelope evaluator emits nothing. -/
lemma check_envelope_core_none (c : Option ℚ) :
    check_envelope_core c none = [] := by
  cases c <;> rfl

/-- C7: a series shorter than the 200-bar moving-average window yields
an undefined average and the mean-reversion evaluator emits no alert
(and, being a total function, does not raise). -/
theorem claim_C7_insufficient_history :
    ∀ df : List Bar, df.length < 200 → check_envelope_strategy df = [] := by
  intro df h
  unfold check_envelope_strategy
  dsimp only
  rw [sma_none_of_short df h]
  exact check_envelope_core_none _

/-- C7 witness: a 10-bar series emits nothing. -/
theorem claim_C7_witness :
    (List.replicate 10 (⟨100, 101⟩ : Bar)).length < 200 ∧
      check_envelope_strategy (List.replicate 10 ⟨100, 101⟩) = [] :=
  ⟨by simp, claim_C7_insufficient_history _ (by simp)⟩

/-! ### Claims about the aggregator loop -/

/-- C3: the aggregator loop is a total function of the per-symbol
outcomes — each successful symbol contributes its alerts, each raising
symbol is recorded as skipped — and in particular a failing symbol in
the middle of the list leaves the other symbols' alerts in the report
and appears in the skip record. -/
theorem claim_C3_partial_failure_isolation :
    (∀ (eval : String → Except String (List Alert)) (symbols : List String),
      run_scan_loop eval symbols =
        ⟨symbols.flatMap (ok_alerts eval),
          symbols.filter (eval_failed eval)⟩) ∧
    (∀ (eval : String → Except String (List Alert))
        (pre post : List String) (bad e : String),
      eval bad = .error e →
        (run_scan_loop eval (pre ++ bad :: post)).alerts =
            (run_scan_loop eval pre).alerts ++
              (run_scan_loop eval post).alerts ∧
          bad ∈ (run_scan_loop eval (pre ++ bad :: post)).skipped) := by
  have main : ∀ (eval : String → Except String (List Alert))
      (symbols : List String),
      run_scan_loop eval symbols =
        ⟨symbols.flatMap (ok_alerts eval),
          symbols.filter (eval_failed eval)⟩ := by
    intro eval symbols
    induction symbols with
    | nil => rfl
    | cons s rest ih =>
      unfold run_scan_loop
      dsimp only
      rw [ih]
      cases hE : eval s <;>
        simp [ok_alerts, eval_failed, hE, List.filter_cons]
  refine ⟨main, fun eval pre post bad e hbad => ?_⟩
  constructor
  · simp [main, ok_alerts, hbad]
  · simp [main, eval_failed, hbad]

/-- The concrete evaluation oracle used in the C3 witness: symbol "B"
raises, every other symbol succeeds with no alerts. -/
def evalB (s : String) : Except String (List Alert) :=
  if s = "B" then Except.error "boom" else Except.ok []

/-- C3 witness: three symbols where the middle one raises; the other
two still contribute and the middle one is recorded as skipped. -/
theorem claim_C3_witness :
    evalB "B" = Except.error "boom" ∧
      ((run_scan_loop evalB (["A"] ++ "B" :: ["C"])).alerts =
        (run_scan_loop evalB ["A"]).alerts ++
          (run_scan_loop evalB ["C"]).alerts ∧
        "B" ∈ (run_scan_loop evalB (["A"] ++ "B" :: ["C"])).skipped) :=
  ⟨rfl, claim_C3_partial_failure_isolation.2 evalB ["A"] ["C"] "B" "boom" rfl⟩

/-! ### Lemmas about the pattern-scan loop -/

/-- A pattern emitted for one run starts at the run's index, spans the
run's green candles, and only exists for a non-empty run. -/
lemma runPattern_mem {q : Pattern} {i : ℕ} {a p : ℚ} {g : ℕ}
    (hq : q ∈ runPattern i a p g) :
    q.start_idx = i ∧ q.candles = g ∧ 0 < g := by
  unfold runPattern at hq
  dsimp only at hq
  split_ifs at hq with hg hgain
  · rcases List.mem_singleton.mp hq with rfl
    exact ⟨rfl, rfl, hg⟩
  · cases hq
  · cases hq

/-- Scanning from an index past the end of the series yields nothing. -/
lemma scanFromFuel_out (df : List Bar) :
    ∀ (fuel i : ℕ), df.length ≤ i → scanFromFuel df fuel i = [] := by
  intro fuel i h
  cases fuel with
  | zero => rfl
  | succ fuel => unfold scanFromFuel; rw [dif_neg (by omega)]

/-- Every pattern produced by the scan loop started at or after the
index the loop was entered at. -/
lemma scanFromFuel_start_le (df : List Bar) :
    ∀ (fuel i : ℕ) (q : Pattern),
      q ∈ scanFromFuel df fuel i → i ≤ q.start_idx := by
  intro fuel
  induction fuel with
  | zero => intro i q hq; simp [scanFromFuel] at hq
  | succ fuel ih =>
    intro i q hq
    unfold scanFromFuel at hq
    by_cases h : i < df.length
    · rw [dif_pos h] at hq
      dsimp only at hq
      rcases List.mem_append.mp hq with hq | hq
      · have h1 := (runPattern_mem hq).1
        omega
      · have h2 := ih _ q hq
        split_ifs at h2 <;> omega
    · rw [dif_neg h] at hq
      cases hq

/-- The runs found by the scan loop appear in order and on disjoint
index ranges: each emitted pattern ends (exclusively) at the index the
loop resumes from. -/
lemma scanFromFuel_pairwise (df : List Bar) :
    ∀ (fuel i : ℕ),
      (scanFromFuel df fuel i).Pairwise
        (fun p q => p.start_idx + p.candles ≤ q.start_idx) := by
  intro fuel
  induction fuel with
  | zero => intro i; simp [scanFromFuel]
  | succ fuel ih =>
    intro i
    unfold scanFromFuel
    by_cases h : i < df.length
    · rw [dif_pos h]
      dsimp only
      rw [List.pairwise_append]
      refine ⟨?_, ih _, ?_⟩
      · unfold runPattern
        dsimp only
        split_ifs <;> simp
      · intro p hp q hq
        have h1 := runPattern_mem hp
        have hg : 0 < greenRunLen df i := h1.2.2
        have h2 := scanFromFuel_start_le df fuel _ q hq
        rw [if_pos (by omega : i < i + greenRunLen df i)] at h2
        omega
    · rw [dif_neg h]
      exact List.Pairwise.nil

/-- Fuel beyond `df.length - i` does not change the scan loop's output:
the loop index strictly increases, so at most `df.length - i` more
iterations can run. -/
lemma scanFromFuel_congr (df : List Bar) :
    ∀ (f1 f2 i : ℕ), df.length - i ≤ f1 → df.length - i ≤ f2 →
      scanFromFuel df f1 i = scanFromFuel df f2 i := by
  intro f1
  induction f1 with
  | zero =>
    intro f2 i h1 _h2
    have hi : df.length ≤ i := by omega
    rw [scanFromFuel_out df 0 i hi, scanFromFuel_out df f2 i hi]
  | succ f1 ih =>
    intro f2 i h1 h2
    by_cases h : i < df.length
    · cases f2 with
      | zero => omega
      | succ f2 =>
        unfold scanFromFuel
        rw [dif_pos h, dif_pos h]
        dsimp only
        congr 1
        have hX : i + 1 ≤
            (if i < i + greenRunLen df i then i + greenRunLen df i
              else i + 1) := by
          split_ifs <;> omega
        apply ih
        · omega
        · omega
    · have hi : df.length ≤ i := by omega
      rw [scanFromFuel_out df (f1 + 1) i hi, scanFromFuel_out df f2 i hi]

/-! ### Claims about the pattern scanner -/

/-- C4: a non-empty run with positive anchor price is emitted exactly
when `movePercent = (peak - anchor) / anchor * 100 >= 20`; the one-bar
series with open 100 and close 120.00 (move exactly 20.00) yields a
pattern, while close 119.99 yields none. -/
theorem claim_C4_move_threshold :
    (∀ (i g : ℕ) (a p : ℚ), 0 < a → 0 < g →
      (runPattern i a p g ≠ [] ↔ 20 ≤ (p - a) / a * 100)) ∧
    find_20_percent_patterns [⟨100, 120⟩] = [⟨0, 100, 120, 20, 1⟩] ∧
    find_20_percent_patterns [⟨100, 119.99⟩] = [] := by
  refine ⟨fun i g a p _ha hg => ?_, ?_, ?_⟩
  · unfold runPattern
    dsimp only
    rw [if_pos hg]
    split_ifs with h20
    · simp [h20]
    · simp [h20]
  · norm_num [find_20_percent_patterns, scanFromFuel, greenRunLen, runHigh,
      runPattern, isGreen, round2, List.takeWhile, List.foldl]
  · norm_num [find_20_percent_patterns, scanFromFuel, greenRunLen, runHigh,
      runPattern, isGreen, round2, List.takeWhile, List.foldl]

/-- C4 witness: the emission condition at anchor 100, peak 120, one
green candle. -/
theorem claim_C4_witness :
    (0 < (100 : ℚ) ∧ 0 < 1) ∧
      (runPattern 0 100 120 1 ≠ [] ↔ 20 ≤ ((120 : ℚ) - 100) / 100 * 100) :=
  ⟨⟨by decide, by decide⟩,
    claim_C4_move_threshold.1 0 1 100 120 (by decide) (by decide)⟩

/-- C6: no bar index belongs to two patterns returned by the scanner —
the ranges `[start_idx, start_idx + candles)` of the returned patterns
are pairwise disjoint. -/
theorem claim_C6_no_overlap :
    ∀ df : List Bar, (find_20_percent_patterns df).Pairwise
      (fun p q => ∀ k : ℕ,
        ¬((p.start_idx ≤ k ∧ k < p.start_idx + p.candles) ∧
          (q.start_idx ≤ k ∧ k < q.start_idx + q.candles))) := by
  intro df
  unfold find_20_percent_patterns
  split_ifs with h
  · exact List.Pairwise.nil
  · exact (scanFromFuel_pairwise df df.length 0).imp fun hpq k hk => by omega

/-- C8 fails on the code: `find_20_percent_patterns` has no
minimum-length requirement — a two-bar series (far shorter than the
claimed 50-bar minimum) containing a 25% green run yields a pattern,
where the claim requires an empty pattern list. -/
theorem claim_C8_counterexample :
    ([(⟨100, 110⟩ : Bar), ⟨110, 125⟩]).length < 50 ∧
      find_20_percent_patterns [⟨100, 110⟩, ⟨110, 125⟩] ≠ [] := by
  constructor
  · simp
  · norm_num [find_20_percent_patterns, scanFromFuel, greenRunLen, runHigh,
      runPattern, isGreen, round2, List.takeWhile, List.foldl]

/-- C8 (amended): the scanner imposes no minimum series length — only
an empty series short-circuits to an empty pattern list — and a run
that extends to the last bar of the series is still evaluated for
qualification using the peak close observed up to the end: on an
all-green series the output is exactly the emission decision for the
single run covering the whole series. -/
theorem claim_C8_scan_runs_to_end :
    find_20_percent_patterns ([] : List Bar) = [] ∧
    (∀ (b : Bar) (rest : List Bar),
      (∀ x ∈ b :: rest, isGreen x = true) →
      find_20_percent_patterns (b :: rest) =
        runPattern 0 b.Open
          ((b :: rest).foldl (fun m x => max m x.Close) b.Close)
          (rest.length + 1)) := by
  constructor
  · rfl
  · intro b rest hall
    have hG : greenRunLen (b :: rest) 0 = rest.length + 1 := by
      unfold greenRunLen
      rw [List.drop_zero, List.takeWhile_eq_self_iff.mpr hall]
      simp
    unfold find_20_percent_patterns
    rw [if_neg (by simp)]
    rw [show ((b :: rest).length) = rest.length + 1 from rfl]
    unfold scanFromFuel
    rw [dif_pos (by simp : 0 < (b :: rest).length)]
    dsimp only
    rw [hG, if_pos (by omega : 0 < 0 + (rest.length + 1)),
      scanFromFuel_out (b :: rest) rest.length (0 + (rest.length + 1))
        (by simp), List.append_nil]
    congr 1
    unfold runHigh
    rw [List.drop_zero, List.takeWhile_eq_self_iff.mpr hall]
    exact rfl

/-- C8 witness: a fully green two-bar series reaching the end of the
data is evaluated with the peak close observed over the whole series. -/
theorem claim_C8_witness :
    (∀ x ∈ [(⟨100, 110⟩ : Bar), ⟨110, 125⟩], isGreen x = true) ∧
      find_20_percent_patterns [⟨100, 110⟩, ⟨110, 125⟩] =
        runPattern 0 100
          (([(⟨100, 110⟩ : Bar), ⟨110, 125⟩]).foldl
            (fun m x => max m x.Close) 110) 2 :=
  ⟨by decide, claim_C8_scan_runs_to_end.2 ⟨100, 110⟩ [⟨110, 125⟩] (by decide)⟩

/-- C10: the outer scan loop advances its index by at least one each
iteration (`i` becomes `j` when `j > i`, else `i + 1`), so fuel equal
to the series length suffices: any larger fuel gives the same result. -/
theorem claim_C10_scan_terminates :
    (∀ (df : List Bar) (i : ℕ),
      i < (if i < i + greenRunLen df i then i + greenRunLen df i
        else i + 1)) ∧
    (∀ (df : List Bar) (fuel : ℕ), df.length ≤ fuel →
      scanFromFuel df fuel 0 = scanFromFuel df df.length 0) := by
  constructor
  · intro df i
    split_ifs with h
    · exact h
    · omega
  · intro df fuel h
    exact scanFromFuel_congr df fuel df.length 0 (by omega) (by omega)

/-- C10 witness: on a one-bar series, fuel 5 and fuel equal to the
length produce the same scan result. -/
theorem claim_C10_witness :
    ([(⟨100, 120⟩ : Bar)]).length ≤ 5 ∧
      scanFromFuel [⟨100, 120⟩] 5 0 =
        scanFromFuel [⟨100, 120⟩] ([(⟨100, 120⟩ : Bar)]).length 0 :=
  ⟨by simp, claim_C10_scan_terminates.2 [⟨100, 120⟩] 5 (by simp)⟩

end Scanner
